import Mathlib

/-!
Shallow embedding of src/week6/starter/src/p1_asyncfs.rs: an asynchronous file read
built from a worker thread, a shared completion cell behind a Mutex, and a poll-based
future.  Bytes are modelled as natural numbers, wakers as opaque natural-number ids,
and a panic of a code path as the value none of an Option-returning function.
-/

namespace AsyncFs

/-- Poll result type, mirroring std::task::Poll. -/
inductive Poll (α : Type) where
  | Ready (v : α)
  | Pending
deriving DecidableEq

/-- Error taxonomy of the underlying read, mirroring std::io::Error as far as the
claims need it (only its existence matters). -/
inductive IoError where
  | readFailure
deriving DecidableEq

/-- SharedState (lines 47-51 of p1_asyncfs.rs): the cell shared between the worker
thread and the future, protected by a Mutex. -/
structure SharedState where
  file_data : Option (List Nat)
  ready : Bool
  waker : Option Nat
deriving DecidableEq

/-- The shared state allocated by read_async (lines 58-62): empty payload, not ready,
no waker registered. -/
def initialSharedState : SharedState :=
  { file_data := none, ready := false, waker := none }

/-- The Mutex cell around SharedState.  A thread that panics while holding the guard
poisons the Mutex, after which lock().unwrap() panics in every other thread. -/
structure MutexSharedState where
  poisoned : Bool
  state : SharedState
deriving DecidableEq

/-- The cell as read_async allocates it: fresh Mutex, initial shared state. -/
def initialCell : MutexSharedState :=
  { poisoned := false, state := initialSharedState }

/-- Outcome of file_copy.read_to_end(&mut buf) (line 71) on the worker's duplicated
handle: the full contents of the file, or an I/O error.  The read primitive itself is
the external collaborator; only its result reaches the worker's match. -/
inductive ReadResult where
  | ok (buf : List Nat)
  | err
deriving DecidableEq

/-- Body of the Ok arm of the worker closure (lines 72-78): store the buffer, set
ready, take the waker (to be woken).  Returns the new shared state and the taken
waker. -/
def workerWriteSuccess (buf : List Nat) (s : SharedState) : SharedState × Option Nat :=
  ({ file_data := some buf, ready := true, waker := none }, s.waker)

/-- The worker thread closure (lines 67-81) acting on the Mutex cell it has locked.
On Ok it writes the buffer and readiness and wakes the taken waker; on Err it
panics (line 79), unwinding while holding the guard and thereby poisoning the Mutex,
with the shared-state fields left untouched.  Returns the cell after the closure, the
waker that gets woken (if any), and whether the thread panicked. -/
def workerClosure (res : ReadResult) (m : MutexSharedState) :
    MutexSharedState × Option Nat × Bool :=
  match res with
  | ReadResult.ok buf =>
      let out := workerWriteSuccess buf m.state
      ({ poisoned := m.poisoned, state := out.1 }, out.2, false)
  | ReadResult.err =>
      ({ poisoned := true, state := m.state }, none, true)

/-- Body of ReadFile::poll under the lock (lines 94-107): if ready, return a clone of
the stored bytes (or an empty buffer if the payload were absent); otherwise record the
caller's waker and return Pending.  First component is the shared state after the
call, second the poll result. -/
def pollBody (cxWaker : Nat) (s : SharedState) :
    SharedState × Poll (Except IoError (List Nat)) :=
  if s.ready then
    match s.file_data with
    | some v => (s, Poll.Ready (Except.ok v))
    | none => (s, Poll.Ready (Except.ok []))
  else
    ({ s with waker := some cxWaker }, Poll.Pending)

/-- ReadFile::poll (lines 91-108): its first action is shared_state.lock().unwrap()
(line 93), which panics (none) when the Mutex is poisoned; otherwise the body runs as
one critical section. -/
def poll (cxWaker : Nat) (m : MutexSharedState) :
    Option (MutexSharedState × Poll (Except IoError (List Nat))) :=
  if m.poisoned then none
  else
    let out := pollBody cxWaker m.state
    some ({ poisoned := false, state := out.1 }, out.2)

/-- AsyncFile::read_async for File (lines 57-84): allocates the shared cell, then
duplicates the handle with self.try_clone().unwrap() (line 65).  When try_clone
fails, the unwrap panics in the calling thread (none); otherwise the worker is
spawned on the duplicate and the cell of the returned ReadFile future is produced. -/
def read_async (tryCloneSucceeds : Bool) : Option MutexSharedState :=
  if tryCloneSucceeds then some initialCell else none

/-- Events that can touch the shared cell after read_async returns: the single worker
finishing with Ok or with Err, or one call to ReadFile::poll with some waker. -/
inductive Event where
  | workerOk (buf : List Nat)
  | workerErr
  | pollCall (w : Nat)
deriving DecidableEq

/-- Effect of one event on the Mutex cell.  A poll against a poisoned Mutex panics
(none): the cell has no successor through that call. -/
def stepEvent : Event → MutexSharedState → Option MutexSharedState
  | Event.workerOk buf, m => some (workerClosure (ReadResult.ok buf) m).1
  | Event.workerErr, m => some (workerClosure ReadResult.err m).1
  | Event.pollCall w, m => (poll w m).map Prod.fst

/-- Cells reachable from the one allocated by read_async through any interleaving of
worker completion and poll calls. -/
inductive Reachable : MutexSharedState → Prop where
  | init : Reachable initialCell
  | step (e : Event) (m m' : MutexSharedState) :
      Reachable m → stepEvent e m = some m' → Reachable m'

/-- Control points of the worker closure relative to the shared-state Mutex: before
line 68 the lock is not yet acquired; from line 68 to the end of the closure the
guard is held, including across the blocking read_to_end on line 71; after line 81
the guard is dropped. -/
inductive WorkerPhase where
  | beforeLock
  | readingUnderLock
  | finished
deriving DecidableEq

/-- Whether the worker thread holds the shared-state lock at a given control point. -/
def lockHeldByWorker : WorkerPhase → Bool
  | WorkerPhase.readingUnderLock => true
  | _ => false

/-- The next control point of the worker thread. -/
def workerAdvance : WorkerPhase → WorkerPhase
  | WorkerPhase.beforeLock => WorkerPhase.readingUnderLock
  | WorkerPhase.readingUnderLock => WorkerPhase.finished
  | WorkerPhase.finished => WorkerPhase.finished

/-- A call to ReadFile::poll can return without waiting for the worker precisely when
the worker does not hold the shared-state lock, since the first action of poll is
lock().unwrap() on the same Mutex (line 93). -/
def pollReturnsImmediately (p : WorkerPhase) : Bool :=
  !(lockHeldByWorker p)

/-- Frame of the poll body: the only field it ever writes is the waker slot, and only
in the pending branch. -/
theorem pollBody_state_eq (w : Nat) (s : SharedState) :
    (pollBody w s).1 = { s with waker := if s.ready then s.waker else some w } := by
  obtain ⟨fd, rd, wk⟩ := s
  cases rd <;> cases fd <;> rfl

/-- C1: evaluation of the code at a failing read.  When read_to_end on the worker's
handle returns Err, the worker panics instead of writing the failure into the shared
state: afterwards ready is still false, no payload or failure is stored, the thread
has panicked, and the next poll panics on the poisoned Mutex, so the failure is
dropped and the promise never resolves to a failure value. -/
theorem c1_read_error_panics_unreported :
    (workerClosure ReadResult.err initialCell).1.state.ready = false ∧
    (workerClosure ReadResult.err initialCell).1.state.file_data = none ∧
    (workerClosure ReadResult.err initialCell).2.2 = true ∧
    poll 0 (workerClosure ReadResult.err initialCell).1 = none :=
  ⟨rfl, rfl, rfl, rfl⟩

/-- C2: content fidelity.  For a file whose read yields bytes buf, read_async
allocates the cell, a first poll is Pending and registers the waker, the worker then
stores buf, marks ready and wakes exactly that waker, and the next poll resolves to
success with exactly buf. -/
theorem c2_resolves_to_exact_contents :
    ∀ (buf : List Nat) (w w' : Nat),
    ∃ cell pendCell : MutexSharedState,
      read_async true = some cell ∧
      poll w cell = some (pendCell, Poll.Pending) ∧
      (workerClosure (ReadResult.ok buf) pendCell).2.1 = some w ∧
      poll w' (workerClosure (ReadResult.ok buf) pendCell).1 =
        some ((workerClosure (ReadResult.ok buf) pendCell).1,
              Poll.Ready (Except.ok buf)) := by
  intro buf w w'
  exact ⟨_, _, rfl, rfl, rfl, rfl⟩

/-- C4: evaluation of the worker's locking discipline.  The worker acquires the
shared-state lock before performing the blocking read (line 68 precedes line 71) and
holds it until the closure ends, so there is a control point at which the worker is
still running and a concurrent poll cannot return immediately: it waits on
lock().unwrap() until the whole read finishes. -/
theorem c4_poll_blocks_during_read :
    workerAdvance WorkerPhase.beforeLock = WorkerPhase.readingUnderLock ∧
    lockHeldByWorker WorkerPhase.readingUnderLock = true ∧
    pollReturnsImmediately WorkerPhase.readingUnderLock = false ∧
    WorkerPhase.readingUnderLock ≠ WorkerPhase.finished :=
  ⟨rfl, rfl, rfl, by decide⟩

/-- C5: evaluation of the code at a failing handle duplication.  When
File::try_clone fails, read_async panics through unwrap in the calling thread rather
than capturing the failure as an error value or an immediately failed promise. -/
theorem c5_clone_failure_panics :
    read_async false = none :=
  rfl

/-- C6: ready implies populated payload.  In every cell reachable from the one
read_async allocates, through any interleaving of worker completion and poll calls,
observing ready = true guarantees the payload is populated: the worker writes payload
and readiness in one critical section, and polls never touch either field. -/
theorem c6_ready_implies_payload :
    ∀ m : MutexSharedState, Reachable m → m.state.ready = true →
      m.state.file_data.isSome = true := by
  intro m hreach
  induction hreach with
  | init =>
      intro h
      simp [initialCell, initialSharedState] at h
  | step e m m' hr hstep ih =>
      intro hready
      cases e with
      | workerOk buf =>
          simp [stepEvent, workerClosure, workerWriteSuccess] at hstep
          subst hstep
          rfl
      | workerErr =>
          simp [stepEvent, workerClosure] at hstep
          subst hstep
          exact ih hready
      | pollCall w =>
          simp [stepEvent, poll] at hstep
          obtain ⟨hpois, hstate⟩ := hstep
          subst hstate
          have hfr := pollBody_state_eq w m.state
          have h1 : (pollBody w m.state).1.ready = m.state.ready := by
            rw [hfr]
          have h2 : (pollBody w m.state).1.file_data = m.state.file_data := by
            rw [hfr]
          rw [h1] at hready
          rw [h2]
          exact ih hready

/-- Witness for C6 at the cell reached by the worker finishing with contents [1]. -/
theorem c6_witness :
    ({ poisoned := false,
       state := { file_data := some [1], ready := true, waker := none } } :
        MutexSharedState).state.file_data.isSome = true :=
  c6_ready_implies_payload _
    (Reachable.step (Event.workerOk [1]) initialCell _ Reachable.init rfl) rfl

/-- C7: single resolution of the readiness flag.  Along every step on the shared
cell, readiness is never reset once true (hence it flips false to true at most once),
and any step that does flip it is a successful worker completion: polls and the
failing worker path never set it. -/
theorem c7_ready_monotone_worker_only :
    ∀ (e : Event) (m m' : MutexSharedState), stepEvent e m = some m' →
      ((m.state.ready = true → m'.state.ready = true) ∧
       (m.state.ready = false → m'.state.ready = true → ∃ buf, e = Event.workerOk buf)) := by
  intro e m m' hstep
  cases e with
  | workerOk buf =>
      simp [stepEvent, workerClosure, workerWriteSuccess] at hstep
      subst hstep
      exact ⟨fun _ => rfl, fun _ _ => ⟨buf, rfl⟩⟩
  | workerErr =>
      simp [stepEvent, workerClosure] at hstep
      subst hstep
      exact ⟨fun h => h, fun h h' => by rw [h] at h'; cases h'⟩
  | pollCall w =>
      simp [stepEvent, poll] at hstep
      obtain ⟨hpois, hstate⟩ := hstep
      subst hstate
      have h1 : (pollBody w m.state).1.ready = m.state.ready := by
        rw [pollBody_state_eq]
      exact ⟨fun h => by rw [h1]; exact h,
             fun h h' => by rw [h1] at h'; rw [h] at h'; cases h'⟩

/-- Witness for C7: the flip at the worker completion step from the initial cell is
attributed to a worker event. -/
theorem c7_witness : ∃ buf, Event.workerOk [1] = Event.workerOk buf :=
  (c7_ready_monotone_worker_only (Event.workerOk [1]) initialCell
      { poisoned := false,
        state := { file_data := some [1], ready := true, waker := none } } rfl).2 rfl rfl

/-- C8: the pending branch of poll.  A poll that observes ready = false stores the
caller's waker into the waker slot, overwriting whatever waker was there, and returns
Pending. -/
theorem c8_pending_registers_latest_waker :
    ∀ (w : Nat) (m : MutexSharedState),
      m.poisoned = false → m.state.ready = false →
      poll w m = some ({ poisoned := false, state := { m.state with waker := some w } },
                       Poll.Pending) := by
  intro w m hp hr
  simp [poll, pollBody, hp, hr]

/-- Witness for C8 at a cell holding a stale waker 5, overwritten by the new waker
7. -/
theorem c8_witness :
    poll 7 { poisoned := false,
             state := { file_data := none, ready := false, waker := some 5 } } =
      some ({ poisoned := false,
              state := { file_data := none, ready := false, waker := some 7 } },
            Poll.Pending) :=
  c8_pending_registers_latest_waker 7 _ rfl rfl

/-- C9: repeatable resolution.  On a resolved cell, poll returns an owned copy of the
stored bytes and leaves the cell exactly as it was, so a second poll returns the same
success again; nothing is moved out or consumed and nothing panics. -/
theorem c9_resolved_poll_repeatable :
    ∀ (w w' : Nat) (m : MutexSharedState) (v : List Nat),
      m.poisoned = false → m.state.ready = true → m.state.file_data = some v →
      poll w m = some (m, Poll.Ready (Except.ok v)) ∧
      poll w' m = some (m, Poll.Ready (Except.ok v)) := by
  intro w w' m v hp hr hd
  obtain ⟨p, s⟩ := m
  obtain ⟨fd, rd, wk⟩ := s
  simp at hp hr hd
  subst hp
  subst hr
  subst hd
  exact ⟨rfl, rfl⟩

/-- Witness for C9 at a cell resolved with bytes [1, 2], polled twice with distinct
wakers. -/
theorem c9_witness :
    poll 0 { poisoned := false,
             state := { file_data := some [1, 2], ready := true, waker := none } } =
      some ({ poisoned := false,
              state := { file_data := some [1, 2], ready := true, waker := none } },
            Poll.Ready (Except.ok [1, 2])) ∧
    poll 3 { poisoned := false,
             state := { file_data := some [1, 2], ready := true, waker := none } } =
      some ({ poisoned := false,
              state := { file_data := some [1, 2], ready := true, waker := none } },
            Poll.Ready (Except.ok [1, 2])) :=
  c9_resolved_poll_repeatable 0 3 _ [1, 2] rfl rfl rfl

/-- C10: frame of poll.  A poll leaves file_data and ready unchanged in both
branches; its entire effect on the shared state is the waker slot, written only in
the pending branch (in the ready branch the state is returned untouched). -/
theorem c10_poll_writes_only_waker :
    ∀ (w : Nat) (s : SharedState),
      (pollBody w s).1.file_data = s.file_data ∧
      (pollBody w s).1.ready = s.ready ∧
      (pollBody w s).1 = { s with waker := if s.ready then s.waker else some w } := by
  intro w s
  refine ⟨?_, ?_, pollBody_state_eq w s⟩ <;> rw [pollBody_state_eq]

end AsyncFs
